import Mathlib

/-!
Verification of the topic extraction and persistence logic of the
podcast-research front end (`HomePage` and its helper
`extractTopicsWithSources`).

The JavaScript source is shallowly embedded:
* JS numbers that the extractor manipulates are modelled as rationals (ℚ);
  the only arithmetic is division by 10 and 100, comparison, `Math.min` and
  `Math.max`, all exact.
* A field that may be absent or `null` is an `Option`; both `undefined` and
  `null` are falsy for `||` and both are mapped to `none`.
* JS `a || b` on numbers falls through when `a` is absent, `null` or `0`
  (falsy); on strings it falls through when absent, `null` or `""`; on
  arrays it falls through only when the field is absent or `null`
  (an empty array is truthy).
* `Array.prototype.slice(s, e)` with non-negative arguments is
  `(l.drop s).take (e - s)`.
-/

/-- A source post: either a plain text string or a structured record with
optional `text`, `title`, `author`, `url` fields. The extractor never
inspects posts, it only slices the candidate lists. -/
inductive SourcePost where
  | str (s : String)
  | record (text title author url : Option String)
deriving DecidableEq

/-- One AI-suggested topic entry of the raw research response; every field
is optional (may be absent or `null`). -/
structure AiTopicEntry where
  title : Option String
  topic : Option String
  description : Option String
  reasoning : Option String
  relevance_score : Option ℚ
  score : Option ℚ
deriving DecidableEq

/-- The nested `ai_topic_suggestions` object. -/
structure AiTopicSuggestions where
  topics : Option (List AiTopicEntry)
deriving DecidableEq

/-- The `twitter_results` object. -/
structure TwitterResults where
  sample_posts : Option (List SourcePost)
  trending_topics : Option (List SourcePost)
deriving DecidableEq

/-- The `tiktok_results` object. -/
structure TiktokResults where
  sample_posts : Option (List SourcePost)
  sample_captions : Option (List SourcePost)
deriving DecidableEq

/-- The `threads_results` object. -/
structure ThreadsResults where
  sample_posts : Option (List SourcePost)
deriving DecidableEq

/-- The `reddit_results` object. -/
structure RedditResults where
  sample_posts : Option (List SourcePost)
  sample_titles : Option (List SourcePost)
deriving DecidableEq

/-- The research-service response: structurally optional at every key. -/
structure RawResearchResult where
  ranked_topics : Option (List AiTopicEntry)
  ai_topic_suggestions : Option AiTopicSuggestions
  twitter_results : Option TwitterResults
  tiktok_results : Option TiktokResults
  threads_results : Option ThreadsResults
  reddit_results : Option RedditResults
deriving DecidableEq

/-- The per-topic `sources` object keyed by the four platforms. -/
structure Sources where
  twitter : List SourcePost
  tiktok : List SourcePost
  threads : List SourcePost
  reddit : List SourcePost
deriving DecidableEq

/-- A derived, display-facing topic record. -/
structure Topic where
  id : Nat
  title : String
  description : String
  relevanceScore : ℚ
  sources : Sources
deriving DecidableEq

/-- JS `a || b` where `a` is an optional string field: falls through to `b`
when `a` is absent, `null`, or the empty string (all falsy). -/
def jsStrOr (a : Option String) (b : String) : String :=
  match a with
  | none => b
  | some s => if s = "" then b else s

/-- JS `a || b` where `a` is an optional number field: falls through to `b`
when `a` is absent, `null`, or `0` (all falsy). -/
def jsNumOr (a : Option ℚ) (b : ℚ) : ℚ :=
  match a with
  | none => b
  | some v => if v = 0 then b else v

/-- JS `a || b` where `a` is an optional array field: an array is always
truthy, so only absence / `null` falls through. -/
def jsArrOr {α : Type} (a : Option (List α)) (b : List α) : List α :=
  a.getD b

/-- JS `Array.prototype.slice(s, e)` with non-negative arguments. -/
def jsSlice {α : Type} (l : List α) (s e : Nat) : List α :=
  (l.drop s).take (e - s)

/-- Line 59: `data.ranked_topics || data.ai_topic_suggestions?.topics || []`. -/
def aiTopicsOf (d : RawResearchResult) : List AiTopicEntry :=
  jsArrOr d.ranked_topics
    (jsArrOr (d.ai_topic_suggestions.bind AiTopicSuggestions.topics) [])

/-- Line 62: `data.twitter_results?.sample_posts ||
data.twitter_results?.trending_topics || []`. -/
def twitterPostsOf (d : RawResearchResult) : List SourcePost :=
  jsArrOr (d.twitter_results.bind TwitterResults.sample_posts)
    (jsArrOr (d.twitter_results.bind TwitterResults.trending_topics) [])

/-- Line 63: `data.tiktok_results?.sample_posts ||
data.tiktok_results?.sample_captions || []`. -/
def tiktokPostsOf (d : RawResearchResult) : List SourcePost :=
  jsArrOr (d.tiktok_results.bind TiktokResults.sample_posts)
    (jsArrOr (d.tiktok_results.bind TiktokResults.sample_captions) [])

/-- Line 64: `data.threads_results?.sample_posts || []`. -/
def threadsPostsOf (d : RawResearchResult) : List SourcePost :=
  jsArrOr (d.threads_results.bind ThreadsResults.sample_posts) []

/-- Line 65: `data.reddit_results?.sample_posts ||
data.reddit_results?.sample_titles || []`. -/
def redditPostsOf (d : RawResearchResult) : List SourcePost :=
  jsArrOr (d.reddit_results.bind RedditResults.sample_posts)
    (jsArrOr (d.reddit_results.bind RedditResults.sample_titles) [])

/-- Line 69: `let relevanceScore = topic.relevance_score || topic.score || 8`. -/
def rawRelevance (t : AiTopicEntry) : ℚ :=
  jsNumOr t.relevance_score (jsNumOr t.score 8)

/-- Lines 72-78: scale inference (reassignments of `relevanceScore` before
the clamp). -/
def scaleRelevance (v : ℚ) : ℚ :=
  if 10 < v then v / 100
  else if 1 < v then v / 10
  else v

/-- Lines 72-81: scale inference followed by
`Math.min(Math.max(relevanceScore, 0), 1)`. -/
def normalizeRelevance (v : ℚ) : ℚ :=
  min (max (scaleRelevance v) 0) 1

/-- Line 85: `topic.title || topic.topic || `Topic ${index + 1}``. -/
def titleOf (index : Nat) (t : AiTopicEntry) : String :=
  jsStrOr t.title (jsStrOr t.topic ("Topic " ++ toString (index + 1)))

/-- Line 86: `topic.description || topic.reasoning || ''`. -/
def descriptionOf (t : AiTopicEntry) : String :=
  jsStrOr t.description (jsStrOr t.reasoning "")

/-- Lines 83-94: the record pushed for the entry at `index`. -/
def buildTopic (tw tk th rd : List SourcePost) (index : Nat)
    (t : AiTopicEntry) : Topic :=
  { id := index
    title := titleOf index t
    description := descriptionOf t
    relevanceScore := normalizeRelevance (rawRelevance t)
    sources :=
      { twitter := jsSlice tw (index * 2) (index * 2 + 2)
        tiktok := jsSlice tk index (index + 1)
        threads := jsSlice th index (index + 1)
        reddit := jsSlice rd index (index + 1) } }

/-- Line 67: `aiTopics.slice(0, 8).forEach((topic, index) => ...)`, with the
`push` accumulation written as an index-threading recursion. -/
def extractLoop (tw tk th rd : List SourcePost) :
    Nat → List AiTopicEntry → List Topic
  | _, [] => []
  | i, t :: ts => buildTopic tw tk th rd i t :: extractLoop tw tk th rd (i + 1) ts

/-- Lines 55-98: `extractTopicsWithSources`. -/
def extractTopicsWithSources (d : RawResearchResult) : List Topic :=
  extractLoop (twitterPostsOf d) (tiktokPostsOf d) (threadsPostsOf d)
    (redditPostsOf d) 0 (jsSlice (aiTopicsOf d) 0 8)

/-- The zero-based indices of the original list that
`jsSlice l s e` copies, in order. -/
def sliceIndices {α : Type} (l : List α) (s e : Nat) : List Nat :=
  (List.range (jsSlice l s e).length).map (fun p => s + p)

/-- An all-absent research result (every key missing). -/
def emptyRaw : RawResearchResult :=
  { ranked_topics := none
    ai_topic_suggestions := none
    twitter_results := none
    tiktok_results := none
    threads_results := none
    reddit_results := none }

/-- An all-absent AI topic entry, used as the `getD` default. -/
def defaultEntry : AiTopicEntry :=
  { title := none
    topic := none
    description := none
    reasoning := none
    relevance_score := none
    score := none }

/-- A default `Topic`, used only as the `getD` default in statements. -/
def defaultTopic : Topic :=
  { id := 0
    title := ""
    description := ""
    relevanceScore := 0
    sources := { twitter := [], tiktok := [], threads := [], reddit := [] } }

/-- Shorthand for a plain-string source post. -/
def sp (s : String) : SourcePost :=
  SourcePost.str s

/-- An AI topic entry whose `relevance_score` is present with value `0`. -/
def zeroEntry : AiTopicEntry :=
  { defaultEntry with relevance_score := some 0 }

/-- An AI topic entry whose `title` is present but empty. -/
def emptyTitleEntry : AiTopicEntry :=
  { defaultEntry with title := some "" }

/-- A research result with three bare AI topics, six twitter candidate
posts and three candidate posts on each other platform. -/
def sampleRaw : RawResearchResult :=
  { emptyRaw with
      ranked_topics := some [defaultEntry, defaultEntry, defaultEntry]
      twitter_results := some
        { sample_posts := some [sp "p0", sp "p1", sp "p2", sp "p3", sp "p4", sp "p5"]
          trending_topics := none }
      tiktok_results := some
        { sample_posts := some [sp "q0", sp "q1", sp "q2"]
          sample_captions := none }
      threads_results := some { sample_posts := some [sp "q0", sp "q1", sp "q2"] }
      reddit_results := some
        { sample_posts := some [sp "q0", sp "q1", sp "q2"]
          sample_titles := none } }

/-- A research result with a single AI topic whose `relevance_score` is `0`. -/
def rawZero : RawResearchResult :=
  { emptyRaw with ranked_topics := some [zeroEntry] }

/-- A research result with a single AI topic whose `title` is the empty
string. -/
def rawEmptyTitle : RawResearchResult :=
  { emptyRaw with ranked_topics := some [emptyTitleEntry] }

/-- A research result whose four AI topics carry raw relevance values
75, 8, 3/5 and -5. -/
def rawScores : RawResearchResult :=
  { emptyRaw with
      ranked_topics := some
        [{ defaultEntry with relevance_score := some 75 },
         { defaultEntry with relevance_score := some 8 },
         { defaultEntry with relevance_score := some (3 / 5) },
         { defaultEntry with relevance_score := some (-5) }] }

/-- The `HomePage` state relevant to topic persistence: the component state
plus the `localStorage` entry under the fixed key `podcastTopics`.  The
storage cell holds the parsed value of the JSON-serialized topic list
(`JSON.stringify` / `JSON.parse` round-trip modelled as the identity). -/
structure HomeState where
  isLoading : Bool
  topics : List Topic
  error : Option String
  storage : Option (List Topic)

/-- The events driving `HomePage`: the generate-ideas click (lines 24-27),
resolution of the research fetch (lines 40-47), and its rejection
(lines 48-52). -/
inductive HomeEvent where
  | clickGenerate
  | researchSuccess (data : RawResearchResult)
  | researchFailure (msg : Option String)

/-- Model of `setTopics` together with the `useEffect` of lines 17-22,
which writes `localStorage` only when the new topic list is non-empty. -/
def setTopicsWithEffect (s : HomeState) (ts : List Topic) : HomeState :=
  { s with
      topics := ts
      storage := if 0 < ts.length then some ts else s.storage }

/-- One step of the `HomePage` event handlers (lines 24-53). -/
def homeStep (s : HomeState) : HomeEvent → HomeState
  | HomeEvent.clickGenerate =>
      setTopicsWithEffect { s with isLoading := true, error := none } []
  | HomeEvent.researchSuccess data =>
      let s2 := setTopicsWithEffect s (extractTopicsWithSources data)
      { s2 with isLoading := false }
  | HomeEvent.researchFailure msg =>
      { s with
          error := some (jsStrOr msg "Failed to generate ideas")
          isLoading := false }

/-- A fresh `HomePage` state with nothing persisted. -/
def home0 : HomeState :=
  { isLoading := false, topics := [], error := none, storage := none }

/-- An AI topic entry with a nonzero `relevance_score` and a present
`score`. -/
def entry75 : AiTopicEntry :=
  { defaultEntry with relevance_score := some 75, score := some 3 }

/-- An AI topic entry with only a nonzero `score`. -/
def entryScoreOnly : AiTopicEntry :=
  { defaultEntry with score := some 5 }

/-- An AI topic entry with non-empty `title` and `topic` fields. -/
def entryTitled : AiTopicEntry :=
  { defaultEntry with title := some "AI", topic := some "Other" }

/-- An AI topic entry with only a non-empty `topic` field. -/
def entryTopicOnly : AiTopicEntry :=
  { defaultEntry with topic := some "Memes" }

/-! ### Helper lemmas -/

theorem extractLoop_length (tw tk th rd : List SourcePost) (i : Nat)
    (ts : List AiTopicEntry) :
    (extractLoop tw tk th rd i ts).length = ts.length := by
  induction ts generalizing i with
  | nil => rfl
  | cons t ts ih => simp [extractLoop, ih]

theorem extractLoop_map_id (tw tk th rd : List SourcePost) (i : Nat)
    (ts : List AiTopicEntry) :
    (extractLoop tw tk th rd i ts).map Topic.id = List.range' i ts.length := by
  induction ts generalizing i with
  | nil => rfl
  | cons t ts ih => simp [extractLoop, buildTopic, List.range'_succ, ih]

theorem extractLoop_getD (tw tk th rd : List SourcePost) (i k : Nat)
    (ts : List AiTopicEntry) (hk : k < ts.length) :
    (extractLoop tw tk th rd i ts).getD k defaultTopic
      = buildTopic tw tk th rd (i + k) (ts.getD k defaultEntry) := by
  induction ts generalizing i k with
  | nil => simp at hk
  | cons t ts ih =>
    cases k with
    | zero => simp [extractLoop]
    | succ k =>
      have hk2 : k < ts.length := by simpa using hk
      have harith : i + 1 + k = i + (k + 1) := by omega
      simp only [extractLoop, List.getD_cons_succ]
      rw [ih (i + 1) k hk2, harith]

theorem mem_extractLoop (tw tk th rd : List SourcePost) (i : Nat)
    (ts : List AiTopicEntry) (p : Topic) :
    p ∈ extractLoop tw tk th rd i ts →
      ∃ j t, p = buildTopic tw tk th rd j t := by
  induction ts generalizing i with
  | nil => intro hp; simp [extractLoop] at hp
  | cons t ts ih =>
    intro hp
    rcases List.mem_cons.mp hp with hp | hp
    · exact ⟨i, t, hp⟩
    · exact ih (i + 1) hp

theorem length_jsSlice {α : Type} (l : List α) (s e : Nat) :
    (jsSlice l s e).length = min (e - s) (l.length - s) := by
  simp [jsSlice]

theorem jsSlice_getD {α : Type} (l : List α) (s e p : Nat) (d : α)
    (hp : p < (jsSlice l s e).length) :
    (jsSlice l s e).getD p d = l.getD (s + p) d := by
  have hlen := length_jsSlice l s e
  have h1 : s + p < l.length := by omega
  rw [List.getD_eq_getElem _ _ hp, List.getD_eq_getElem _ _ h1]
  simp only [jsSlice, List.getElem_take, List.getElem_drop]

theorem mem_sliceIndices {α : Type} (l : List α) (s e n : Nat) :
    n ∈ sliceIndices l s e ↔ ∃ p, p < (jsSlice l s e).length ∧ n = s + p := by
  constructor
  · intro h
    rcases List.mem_map.mp h with ⟨p, hp, hn⟩
    exact ⟨p, List.mem_range.mp hp, hn.symm⟩
  · rintro ⟨p, hp, rfl⟩
    exact List.mem_map.mpr ⟨p, List.mem_range.mpr hp, rfl⟩

theorem normalizeRelevance_nonneg (v : ℚ) : 0 ≤ normalizeRelevance v :=
  le_min (le_max_right _ _) zero_le_one

theorem normalizeRelevance_le_one (v : ℚ) : normalizeRelevance v ≤ 1 :=
  min_le_right _ _

theorem sliceIndices_singleton {α : Type} (l : List α) (i n : Nat) :
    n ∈ sliceIndices l i (i + 1) → n = i ∧ i < l.length := by
  intro h
  rcases (mem_sliceIndices _ _ _ _).mp h with ⟨p, hp, rfl⟩
  have hlen := length_jsSlice l i (i + 1)
  constructor <;> omega

/-! ### Claim theorems -/

/-- Claim C1: for every raw result whose selected AI-topic sequence has
length N, the extractor returns exactly `min(N, 8)` Topic records whose
`id` fields are the positions `0 .. min(N,8)-1` in order, and an input
with zero AI topics yields the empty sequence. -/
theorem extract_count_and_ids (d : RawResearchResult) :
    (extractTopicsWithSources d).length = min (aiTopicsOf d).length 8 ∧
    (extractTopicsWithSources d).map Topic.id
      = List.range (min (aiTopicsOf d).length 8) ∧
    (aiTopicsOf d = [] → extractTopicsWithSources d = []) := by
  have hsl : (jsSlice (aiTopicsOf d) 0 8).length = min (aiTopicsOf d).length 8 := by
    simp [jsSlice, Nat.min_comm]
  refine ⟨?_, ?_, ?_⟩
  · rw [extractTopicsWithSources, extractLoop_length, hsl]
  · rw [extractTopicsWithSources, extractLoop_map_id, hsl, List.range_eq_range']
  · intro h
    rw [extractTopicsWithSources, h]
    rfl

/-- Witness for C1 at concrete inputs: the all-absent raw result gives the
empty list, and a three-topic input gives ids `[0, 1, 2]`. -/
theorem extract_count_and_ids_witness :
    extractTopicsWithSources emptyRaw = [] ∧
    (extractTopicsWithSources sampleRaw).map Topic.id
      = List.range (min (aiTopicsOf sampleRaw).length 8) :=
  ⟨(extract_count_and_ids emptyRaw).2.2 rfl,
   (extract_count_and_ids sampleRaw).2.1⟩

/-- Claim C2: the relevance normalization divides by 100 above 10, by 10 on
(1, 10], leaves other values unchanged, then clamps into [0,1]; every
output relevance score lies in [0,1]; raw 75 gives 3/4, raw 8 gives 4/5,
raw 3/5 stays 3/5, and negative raw values give 0. -/
theorem relevance_normalization_sound :
    (∀ v : ℚ, 10 < v → scaleRelevance v = v / 100) ∧
    (∀ v : ℚ, 1 < v → v ≤ 10 → scaleRelevance v = v / 10) ∧
    (∀ v : ℚ, v ≤ 1 → scaleRelevance v = v) ∧
    (∀ v : ℚ, normalizeRelevance v = min (max (scaleRelevance v) 0) 1) ∧
    (∀ v : ℚ, 0 ≤ normalizeRelevance v ∧ normalizeRelevance v ≤ 1) ∧
    (∀ d : RawResearchResult, ∀ t ∈ extractTopicsWithSources d,
        0 ≤ t.relevanceScore ∧ t.relevanceScore ≤ 1) ∧
    normalizeRelevance 75 = 3 / 4 ∧
    normalizeRelevance 8 = 4 / 5 ∧
    normalizeRelevance (3 / 5) = 3 / 5 ∧
    (∀ v : ℚ, v < 0 → normalizeRelevance v = 0) ∧
    (extractTopicsWithSources rawScores).map Topic.relevanceScore
      = [3 / 4, 4 / 5, 3 / 5, 0] := by
  refine ⟨?_, ?_, ?_, ?_, ?_, ?_, ?_, ?_, ?_, ?_, ?_⟩
  · intro v hv
    rw [scaleRelevance, if_pos hv]
  · intro v h1 h10
    rw [scaleRelevance, if_neg (by linarith), if_pos h1]
  · intro v hv
    rw [scaleRelevance, if_neg (by linarith), if_neg (by linarith)]
  · intro v
    rfl
  · intro v
    exact ⟨normalizeRelevance_nonneg v, normalizeRelevance_le_one v⟩
  · intro d t ht
    rw [extractTopicsWithSources] at ht
    rcases mem_extractLoop _ _ _ _ _ _ _ ht with ⟨j, e, rfl⟩
    exact ⟨normalizeRelevance_nonneg _, normalizeRelevance_le_one _⟩
  · norm_num [normalizeRelevance, scaleRelevance]
  · norm_num [normalizeRelevance, scaleRelevance]
  · norm_num [normalizeRelevance, scaleRelevance]
  · intro v hv
    have hs : scaleRelevance v = v := by
      rw [scaleRelevance, if_neg (by linarith), if_neg (by linarith)]
    rw [normalizeRelevance, hs, max_eq_right (le_of_lt hv),
      min_eq_left zero_le_one]
  · simp [extractTopicsWithSources, extractLoop, buildTopic, rawScores,
      emptyRaw, aiTopicsOf, jsArrOr, jsSlice, rawRelevance, jsNumOr,
      defaultEntry, normalizeRelevance, scaleRelevance]
    norm_num

/-- Witness for C2 at concrete inputs: each normalization branch evaluated,
a negative value clamped to zero, and the bound applied to an actual
extracted topic. -/
theorem relevance_normalization_sound_witness :
    scaleRelevance 75 = 75 / 100 ∧
    scaleRelevance 8 = 8 / 10 ∧
    scaleRelevance (3 / 5) = 3 / 5 ∧
    normalizeRelevance (-5) = 0 ∧
    (0 ≤ ((extractTopicsWithSources sampleRaw).getD 0 defaultTopic).relevanceScore ∧
      ((extractTopicsWithSources sampleRaw).getD 0 defaultTopic).relevanceScore ≤ 1) := by
  have hm : (extractTopicsWithSources sampleRaw).getD 0 defaultTopic
      ∈ extractTopicsWithSources sampleRaw := by
    rw [List.getD_eq_getElem _ _ (by decide)]
    exact List.getElem_mem _
  exact ⟨relevance_normalization_sound.1 75 (by norm_num),
    relevance_normalization_sound.2.1 8 (by norm_num) (by norm_num),
    relevance_normalization_sound.2.2.1 (3 / 5) (by norm_num),
    relevance_normalization_sound.2.2.2.2.2.2.2.2.2.1 (-5) (by norm_num),
    relevance_normalization_sound.2.2.2.2.2.1 sampleRaw _ hm⟩

/-- Claim C3 counterexample: an entry whose `relevance_score` field is
present with value 0 (and `score` absent) resolves to the default 8, so
the raw number is not the first present field and the default is not used
only when both fields are absent. -/
theorem relevance_resolution_counterexample :
    zeroEntry.relevance_score = some 0 ∧
    zeroEntry.score = none ∧
    rawRelevance zeroEntry = 8 ∧
    (8 : ℚ) ≠ 0 :=
  ⟨rfl, rfl, rfl, by norm_num⟩

/-- Claim C3 amended: the raw relevance number is the first present and
nonzero of `relevance_score` and `score` (JS `||` falsiness), and the
default 8 is used exactly when each of the two fields is absent or 0; a
present nonzero `relevance_score` wins even when `score` is present. -/
theorem relevance_resolution_truthy :
    (∀ (e : AiTopicEntry) (v : ℚ),
        e.relevance_score = some v → v ≠ 0 → rawRelevance e = v) ∧
    (∀ (e : AiTopicEntry) (v : ℚ),
        (e.relevance_score = none ∨ e.relevance_score = some 0) →
        e.score = some v → v ≠ 0 → rawRelevance e = v) ∧
    (∀ e : AiTopicEntry,
        (e.relevance_score = none ∨ e.relevance_score = some 0) →
        (e.score = none ∨ e.score = some 0) → rawRelevance e = 8) := by
  refine ⟨?_, ?_, ?_⟩
  · intro e v h1 hv
    rw [rawRelevance, h1]
    simp [jsNumOr, hv]
  · intro e v h1 h2 hv
    rcases h1 with h1 | h1 <;>
      rw [rawRelevance, h1, h2] <;> simp [jsNumOr, hv]
  · intro e h1 h2
    rcases h1 with h1 | h1 <;> rcases h2 with h2 | h2 <;>
      rw [rawRelevance, h1, h2] <;> simp [jsNumOr]

/-- Witness for amended C3 at concrete entries: a nonzero
`relevance_score` wins over a present `score`, a nonzero `score` is used
when `relevance_score` is absent, and an all-absent entry defaults to 8. -/
theorem relevance_resolution_truthy_witness :
    rawRelevance entry75 = 75 ∧
    rawRelevance entryScoreOnly = 5 ∧
    rawRelevance defaultEntry = 8 :=
  ⟨relevance_resolution_truthy.1 entry75 75 rfl (by norm_num),
   relevance_resolution_truthy.2.1 entryScoreOnly 5 (Or.inl rfl) rfl (by norm_num),
   relevance_resolution_truthy.2.2 defaultEntry (Or.inl rfl) (Or.inl rfl)⟩

/-- Claim C10: an entry with `relevance_score` present as 0 (and `score`
absent or 0) yields the normalized default 4/5 = 0.8, not 0. -/
theorem zero_relevance_uses_default (d : RawResearchResult) (k : Nat)
    (hk : k < (extractTopicsWithSources d).length)
    (h1 : ((jsSlice (aiTopicsOf d) 0 8).getD k defaultEntry).relevance_score
        = some 0)
    (h2 : ((jsSlice (aiTopicsOf d) 0 8).getD k defaultEntry).score = none ∨
      ((jsSlice (aiTopicsOf d) 0 8).getD k defaultEntry).score = some 0) :
    ((extractTopicsWithSources d).getD k defaultTopic).relevanceScore = 4 / 5 := by
  have hk2 : k < (jsSlice (aiTopicsOf d) 0 8).length := by
    rw [extractTopicsWithSources, extractLoop_length] at hk
    exact hk
  rw [extractTopicsWithSources, extractLoop_getD _ _ _ _ 0 k _ hk2]
  simp only [buildTopic]
  rw [rawRelevance, h1]
  rcases h2 with h2 | h2 <;> rw [h2] <;>
    norm_num [jsNumOr, normalizeRelevance, scaleRelevance]

/-- Witness for C10 at a concrete input: one topic entry with
`relevance_score = 0` extracts with relevance 4/5. -/
theorem zero_relevance_uses_default_witness :
    ((extractTopicsWithSources rawZero).getD 0 defaultTopic).relevanceScore
      = 4 / 5 :=
  zero_relevance_uses_default rawZero 0 (by decide) rfl (Or.inl rfl)

/-- Claim C4 counterexample: an entry whose `title` field is present but
empty (and `topic` absent) at position 0 gets the synthesized label
"Topic 1", so the title is not the first present field and the label is
not used only when both fields are absent. -/
theorem title_resolution_counterexample :
    emptyTitleEntry.title = some "" ∧
    emptyTitleEntry.topic = none ∧
    (extractTopicsWithSources rawEmptyTitle).map Topic.title = ["Topic 1"] ∧
    "Topic 1" ≠ "" :=
  ⟨rfl, rfl, rfl, by decide⟩

/-- Claim C4 amended: the output title is the first present and non-empty
of `title` and `topic` (JS `||` falsiness), and the synthesized label
`"Topic " + (i+1)` is used exactly when each of the two fields is absent
or the empty string; an entry with neither field at position 2 yields
"Topic 3". -/
theorem title_resolution_truthy :
    (∀ (e : AiTopicEntry) (i : Nat) (s : String),
        e.title = some s → s ≠ "" → titleOf i e = s) ∧
    (∀ (e : AiTopicEntry) (i : Nat) (s : String),
        (e.title = none ∨ e.title = some "") →
        e.topic = some s → s ≠ "" → titleOf i e = s) ∧
    (∀ (e : AiTopicEntry) (i : Nat),
        (e.title = none ∨ e.title = some "") →
        (e.topic = none ∨ e.topic = some "") →
        titleOf i e = "Topic " ++ toString (i + 1)) ∧
    (extractTopicsWithSources sampleRaw).map Topic.title
      = ["Topic 1", "Topic 2", "Topic 3"] := by
  refine ⟨?_, ?_, ?_, rfl⟩
  · intro e i s h1 hs
    rw [titleOf, h1]
    simp [jsStrOr, hs]
  · intro e i s h1 h2 hs
    rcases h1 with h1 | h1 <;>
      rw [titleOf, h1, h2] <;> simp [jsStrOr, hs]
  · intro e i h1 h2
    rcases h1 with h1 | h1 <;> rcases h2 with h2 | h2 <;>
      rw [titleOf, h1, h2] <;> simp [jsStrOr]

/-- Witness for amended C4 at concrete entries: a non-empty `title` wins,
a non-empty `topic` is used when `title` is absent, and a bare entry at
position 2 gets "Topic 3". -/
theorem title_resolution_truthy_witness :
    titleOf 0 entryTitled = "AI" ∧
    titleOf 1 entryTopicOnly = "Memes" ∧
    titleOf 2 defaultEntry = "Topic " ++ toString (2 + 1) :=
  ⟨title_resolution_truthy.1 entryTitled 0 "AI" rfl (by decide),
   title_resolution_truthy.2.1 entryTopicOnly 1 "Memes" (Or.inl rfl) rfl (by decide),
   title_resolution_truthy.2.2.1 defaultEntry 2 (Or.inl rfl) (Or.inl rfl)⟩

/-- Claim C5: the topic at position k receives the twitter slice of at
most two consecutive posts starting at offset 2k; the slice elements are
the original posts at those offsets; slices of distinct topics occupy
disjoint index windows; out-of-range slices are shorter or empty; with
six candidates and three topics the slices are the three disjoint pairs. -/
theorem twitter_source_slices :
    (∀ (d : RawResearchResult) (k : Nat),
        k < (extractTopicsWithSources d).length →
        ((extractTopicsWithSources d).getD k defaultTopic).sources.twitter
          = jsSlice (twitterPostsOf d) (k * 2) (k * 2 + 2)) ∧
    (∀ (l : List SourcePost) (k : Nat),
        (jsSlice l (k * 2) (k * 2 + 2)).length ≤ 2) ∧
    (∀ (l : List SourcePost) (k : Nat), l.length ≤ k * 2 →
        jsSlice l (k * 2) (k * 2 + 2) = []) ∧
    (∀ (l : List SourcePost) (s e p : Nat) (d0 : SourcePost),
        p < (jsSlice l s e).length →
        (jsSlice l s e).getD p d0 = l.getD (s + p) d0) ∧
    (∀ (l : List SourcePost) (i j n : Nat), i ≠ j →
        n ∈ sliceIndices l (i * 2) (i * 2 + 2) →
        n ∉ sliceIndices l (j * 2) (j * 2 + 2)) ∧
    (extractTopicsWithSources sampleRaw).map (fun t => t.sources.twitter)
      = [[sp "p0", sp "p1"], [sp "p2", sp "p3"], [sp "p4", sp "p5"]] := by
  refine ⟨?_, ?_, ?_, ?_, ?_, rfl⟩
  · intro d k hk
    have hk2 : k < (jsSlice (aiTopicsOf d) 0 8).length := by
      rw [extractTopicsWithSources, extractLoop_length] at hk
      exact hk
    rw [extractTopicsWithSources, extractLoop_getD _ _ _ _ 0 k _ hk2]
    simp [buildTopic]
  · intro l k
    rw [length_jsSlice]
    omega
  · intro l k h
    simp [jsSlice, List.drop_eq_nil_of_le h]
  · intro l s e p d0 hp
    exact jsSlice_getD l s e p d0 hp
  · intro l i j n hij hi hj
    rcases (mem_sliceIndices _ _ _ _).mp hi with ⟨p, hp, rfl⟩
    rcases (mem_sliceIndices _ _ _ _).mp hj with ⟨q, hq, he⟩
    have hpl := length_jsSlice l (i * 2) (i * 2 + 2)
    have hql := length_jsSlice l (j * 2) (j * 2 + 2)
    omega

/-- Witness for C5 at concrete inputs: topic 0 of the six-post sample
carries the slice at offset 0, an out-of-range slice is empty, the slice
element corresponds to the original offset, and post index 2 of topic 1's
window is outside topic 0's window. -/
theorem twitter_source_slices_witness :
    ((extractTopicsWithSources sampleRaw).getD 0 defaultTopic).sources.twitter
      = jsSlice (twitterPostsOf sampleRaw) (0 * 2) (0 * 2 + 2) ∧
    jsSlice ([] : List SourcePost) (5 * 2) (5 * 2 + 2) = [] ∧
    (jsSlice [sp "a"] 0 1).getD 0 (sp "z") = [sp "a"].getD (0 + 0) (sp "z") ∧
    2 ∉ sliceIndices (twitterPostsOf sampleRaw) (0 * 2) (0 * 2 + 2) :=
  ⟨twitter_source_slices.1 sampleRaw 0 (by decide),
   twitter_source_slices.2.2.1 [] 5 (by decide),
   twitter_source_slices.2.2.2.1 [sp "a"] 0 1 0 (sp "z") (by decide),
   twitter_source_slices.2.2.2.2.1 (twitterPostsOf sampleRaw) 1 0 2
     (by decide) (by decide)⟩

/-- Claim C6: on each non-primary platform (tiktok, threads, reddit) the
topic at position k receives the slice of at most one post at offset k;
with candidates `[q0, q1, q2]` and three topics the slices are
`[q0]`, `[q1]`, `[q2]`. -/
theorem nonprimary_source_slices :
    (∀ (d : RawResearchResult) (k : Nat),
        k < (extractTopicsWithSources d).length →
        ((extractTopicsWithSources d).getD k defaultTopic).sources.tiktok
            = jsSlice (tiktokPostsOf d) k (k + 1) ∧
          ((extractTopicsWithSources d).getD k defaultTopic).sources.threads
            = jsSlice (threadsPostsOf d) k (k + 1) ∧
          ((extractTopicsWithSources d).getD k defaultTopic).sources.reddit
            = jsSlice (redditPostsOf d) k (k + 1)) ∧
    (∀ (l : List SourcePost) (k : Nat), (jsSlice l k (k + 1)).length ≤ 1) ∧
    (extractTopicsWithSources sampleRaw).map (fun t => t.sources.tiktok)
        = [[sp "q0"], [sp "q1"], [sp "q2"]] ∧
    (extractTopicsWithSources sampleRaw).map (fun t => t.sources.threads)
        = [[sp "q0"], [sp "q1"], [sp "q2"]] ∧
    (extractTopicsWithSources sampleRaw).map (fun t => t.sources.reddit)
        = [[sp "q0"], [sp "q1"], [sp "q2"]] := by
  refine ⟨?_, ?_, rfl, rfl, rfl⟩
  · intro d k hk
    have hk2 : k < (jsSlice (aiTopicsOf d) 0 8).length := by
      rw [extractTopicsWithSources, extractLoop_length] at hk
      exact hk
    rw [extractTopicsWithSources, extractLoop_getD _ _ _ _ 0 k _ hk2]
    refine ⟨?_, ?_, ?_⟩ <;> simp [buildTopic]
  · intro l k
    rw [length_jsSlice]
    omega

/-- Witness for C6 at the three-topic sample: each platform's slice at a
concrete position. -/
theorem nonprimary_source_slices_witness :
    ((extractTopicsWithSources sampleRaw).getD 0 defaultTopic).sources.tiktok
      = jsSlice (tiktokPostsOf sampleRaw) 0 (0 + 1) ∧
    ((extractTopicsWithSources sampleRaw).getD 1 defaultTopic).sources.threads
      = jsSlice (threadsPostsOf sampleRaw) 1 (1 + 1) ∧
    ((extractTopicsWithSources sampleRaw).getD 2 defaultTopic).sources.reddit
      = jsSlice (redditPostsOf sampleRaw) 2 (2 + 1) :=
  ⟨(nonprimary_source_slices.1 sampleRaw 0 (by decide)).1,
   (nonprimary_source_slices.1 sampleRaw 1 (by decide)).2.1,
   (nonprimary_source_slices.1 sampleRaw 2 (by decide)).2.2⟩

/-- Claim C7 counterexample: with three topics extracted and a non-empty
tiktok candidate list, no two distinct topics share a post index — the
single-post windows at offsets 0, 1, 2 are pairwise disjoint, so the
claimed overlap never occurs. -/
theorem nonprimary_overlap_counterexample :
    (extractTopicsWithSources sampleRaw).length = 3 ∧
    tiktokPostsOf sampleRaw ≠ [] ∧
    ¬ ∃ i j n : Nat, i < 3 ∧ j < 3 ∧ i ≠ j ∧
        n ∈ sliceIndices (tiktokPostsOf sampleRaw) i (i + 1) ∧
        n ∈ sliceIndices (tiktokPostsOf sampleRaw) j (j + 1) := by
  refine ⟨rfl, by decide, ?_⟩
  rintro ⟨i, j, n, _, _, hij, hi, hj⟩
  obtain ⟨h1, _⟩ := sliceIndices_singleton _ i n hi
  obtain ⟨h2, _⟩ := sliceIndices_singleton _ j n hj
  omega

/-- Claim C7 amended: on the non-primary platforms the topic at position i
draws from the single-post window at offset i, so the windows of distinct
topics are pairwise disjoint — two distinct topics never reuse the same
post index there. -/
theorem nonprimary_windows_disjoint :
    (∀ (l : List SourcePost) (i : Nat), i < l.length →
        sliceIndices l i (i + 1) = [i]) ∧
    (∀ (l : List SourcePost) (i : Nat), l.length ≤ i →
        sliceIndices l i (i + 1) = []) ∧
    (∀ (l : List SourcePost) (i j n : Nat), i ≠ j →
        n ∈ sliceIndices l i (i + 1) → n ∉ sliceIndices l j (j + 1)) := by
  refine ⟨?_, ?_, ?_⟩
  · intro l i h
    have hlen : (jsSlice l i (i + 1)).length = 1 := by
      rw [length_jsSlice]
      omega
    rw [sliceIndices, hlen]
    rfl
  · intro l i h
    have hlen : (jsSlice l i (i + 1)).length = 0 := by
      rw [length_jsSlice]
      omega
    rw [sliceIndices, hlen]
    rfl
  · intro l i j n hij hi hj
    obtain ⟨h1, _⟩ := sliceIndices_singleton l i n hi
    obtain ⟨h2, _⟩ := sliceIndices_singleton l j n hj
    omega

/-- Witness for amended C7 at concrete inputs: an in-range window is the
singleton of its offset, an out-of-range window is empty, and post index 0
of topic 0's window is outside topic 1's window. -/
theorem nonprimary_windows_disjoint_witness :
    sliceIndices [sp "q0", sp "q1", sp "q2"] 1 (1 + 1) = [1] ∧
    sliceIndices [sp "q0"] 4 (4 + 1) = [] ∧
    0 ∉ sliceIndices [sp "q0", sp "q1", sp "q2"] 1 (1 + 1) :=
  ⟨nonprimary_windows_disjoint.1 [sp "q0", sp "q1", sp "q2"] 1 (by decide),
   nonprimary_windows_disjoint.2.1 [sp "q0"] 4 (by decide),
   nonprimary_windows_disjoint.2.2 [sp "q0", sp "q1", sp "q2"] 0 1 0
     (by decide) (by decide)⟩

/-- Claim C8: the extractor is total over the structurally-optional input
type — every raw result (any key absent, null or empty) produces a topic
list (of at most eight records) rather than an error. -/
theorem extract_total (d : RawResearchResult) :
    ∃ ts : List Topic, extractTopicsWithSources d = ts ∧ ts.length ≤ 8 := by
  refine ⟨extractTopicsWithSources d, rfl, ?_⟩
  rw [extractTopicsWithSources, extractLoop_length, length_jsSlice]
  omega

/-- Claim C9: a failed research call sets the error state and leaves the
persisted topic list untouched; the persisted entry changes only on a
successful extraction producing a non-empty topic list, and then holds
exactly that list. -/
theorem failure_preserves_persisted_topics :
    (∀ (s : HomeState) (msg : Option String),
        (homeStep s (HomeEvent.researchFailure msg)).error
          = some (jsStrOr msg "Failed to generate ideas") ∧
        (homeStep s (HomeEvent.researchFailure msg)).storage = s.storage) ∧
    (∀ (s : HomeState) (e : HomeEvent),
        (homeStep s e).storage ≠ s.storage →
        ∃ d, e = HomeEvent.researchSuccess d ∧
          extractTopicsWithSources d ≠ [] ∧
          (homeStep s e).storage = some (extractTopicsWithSources d)) := by
  constructor
  · intro s msg
    exact ⟨rfl, rfl⟩
  · intro s e
    cases e with
    | clickGenerate => intro h; exact absurd rfl h
    | researchFailure msg => intro h; exact absurd rfl h
    | researchSuccess data =>
      intro h
      by_cases hl : 0 < (extractTopicsWithSources data).length
      · refine ⟨data, rfl, ?_, ?_⟩
        · intro hnil
          rw [hnil] at hl
          simp at hl
        · show (homeStep s (HomeEvent.researchSuccess data)).storage = _
          simp [homeStep, setTopicsWithEffect, hl]
      · exfalso
        apply h
        show (homeStep s (HomeEvent.researchSuccess data)).storage = s.storage
        simp [homeStep, setTopicsWithEffect, hl]

/-- Witness for C9 at concrete inputs: from a fresh state, a failure sets
the error and keeps the (empty) storage, and the only storage change comes
from a successful extraction with its non-empty topic list. -/
theorem failure_preserves_persisted_topics_witness :
    ((homeStep home0 (HomeEvent.researchFailure none)).error
        = some (jsStrOr none "Failed to generate ideas") ∧
      (homeStep home0 (HomeEvent.researchFailure none)).storage
        = home0.storage) ∧
    (∃ d, HomeEvent.researchSuccess rawZero = HomeEvent.researchSuccess d ∧
        extractTopicsWithSources d ≠ [] ∧
        (homeStep home0 (HomeEvent.researchSuccess rawZero)).storage
          = some (extractTopicsWithSources d)) := by
  refine ⟨failure_preserves_persisted_topics.1 home0 none,
    failure_preserves_persisted_topics.2 home0
      (HomeEvent.researchSuccess rawZero) ?_⟩
  have hl : 0 < (extractTopicsWithSources rawZero).length := by decide
  show (homeStep home0 (HomeEvent.researchSuccess rawZero)).storage
      ≠ home0.storage
  simp [homeStep, setTopicsWithEffect, home0, hl]
